import Mathlib

/-!
Shallow embedding of the Imagen4 repository (three Python scripts:
`imagen4_cli.py`, `example.py`, `setup.py`) and proofs of the spec claims.

External interactions (the generative-image API, subprocess invocations,
stdin, the filesystem) are modelled by oracle parameters; the observable
behaviour of each script is a value together with a list of `Effect`s in
program order.  Machine-level details that no claim touches (absolute-path
resolution, the PATH separator) are modelled by the identity / a dedicated
effect constructor, as noted at each definition.
-/

namespace Imagen4

/-- Raw image bytes (`image.data` in the response). -/
structure Image where
  data : List Nat
deriving DecidableEq, Repr

/-- One element of `response.generated_images`. -/
structure GeneratedImage where
  image : Image
deriving DecidableEq, Repr

/-- The response of `client.models.generate_images`. -/
structure GenerateImagesResponse where
  generated_images : List GeneratedImage
deriving DecidableEq, Repr

/-- Outcome of the external `generate_images` call: a response, or a raised
exception carrying its message. -/
inductive ApiResult where
  | ok (resp : GenerateImagesResponse)
  | raises (msg : String)
deriving DecidableEq, Repr

/-- Python exceptions that the scripts can raise or catch. -/
inductive PyError where
  | valueError (msg : String)
  | typeError (msg : String)
  | apiError (msg : String)
  | indexError (msg : String)
deriving DecidableEq, Repr

/-- The message `str(e)` of a modelled exception. -/
def PyError.msg : PyError → String
  | .valueError m => m
  | .typeError m => m
  | .apiError m => m
  | .indexError m => m

/-- Observable side effects, in program order.  `writeBytes` is a completed
`open(path, "wb")` block with the total bytes written (an `open` whose body
raises before writing leaves an empty file: `writeBytes path []`);
`writeText` is an `open(path, "w")` block; `readLine` is `input(prompt)`;
`prependPath` is the `os.environ["PATH"] = dir + os.pathsep + PATH`
mutation. -/
inductive Effect where
  | print (s : String)
  | readLine (prompt : String)
  | writeBytes (path : String) (data : List Nat)
  | writeText (path : String) (data : String)
  | mkdir (path : String)
  | setEnv (key val : String)
  | prependPath (dir : String)
  | openBrowser (url : String)
deriving DecidableEq, Repr

/-- The byte-file writes of a trace, in order. -/
def writesBytes : List Effect → List (String × List Nat)
  | [] => []
  | Effect.writeBytes p d :: rest => (p, d) :: writesBytes rest
  | _ :: rest => writesBytes rest

/-- The text-file writes of a trace, in order. -/
def writesText : List Effect → List (String × String)
  | [] => []
  | Effect.writeText p d :: rest => (p, d) :: writesText rest
  | _ :: rest => writesText rest

/-- The environment-variable assignments of a trace, in order. -/
def envSets : List Effect → List (String × String)
  | [] => []
  | Effect.setEnv k v :: rest => (k, v) :: envSets rest
  | _ :: rest => envSets rest

/-- How many `input(...)` reads a trace performs. -/
def readCount : List Effect → Nat
  | [] => 0
  | Effect.readLine _ :: rest => readCount rest + 1
  | _ :: rest => readCount rest

/-- Python truthiness of an optional string: `None` and `""` are falsy. -/
def isTruthy : Option String → Bool
  | none => false
  | some s => s != ""

/-- Python `str.lower`, modelled characterwise (they agree on ASCII). -/
def pyLower (s : String) : String := (s.data.map Char.toLower).asString

/-! ## imagen4_cli.py -/

/-- The configured `genai.Client` (only the constructor arguments are
observable). -/
structure Client where
  project : String
  location : String
deriving DecidableEq, Repr

/-- Embeds `setup_client(project_id, location)`.  `env_project` is
`os.environ.get("GOOGLE_CLOUD_PROJECT")`; `client_exc` is the exception the
external `genai.Client(...)` constructor raises, if any. -/
def setup_client (project_id : Option String) (location : String)
    (env_project : Option String) (client_exc : Option String) :
    Except PyError Client :=
  let pid := if isTruthy project_id then project_id else env_project
  if isTruthy pid then
    match client_exc with
    | some m => Except.error (PyError.apiError m)
    | none => Except.ok (Client.mk (pid.getD "") location)
  else
    Except.error (PyError.valueError
      "Project ID must be provided either as an argument or via GOOGLE_CLOUD_PROJECT environment variable")

/-- The sanitized filename component of `generate_image`:
`"".join(c if c.isalnum() else "_" for c in prompt[:30])`.
Python `str.isalnum` is modelled by `Char.isAlphanum` (they agree on
ASCII). -/
def safe_prompt (prompt : String) : String :=
  ((prompt.data.take 30).map (fun c => if c.isAlphanum then c else '_')).asString

/-- Embeds `generate_image(client, prompt, model, output_dir)`.  `api` is the
outcome of the external `client.models.generate_images` call; `temp_dir` is
`tempfile.gettempdir()`.  Returns the Python return value (`None` or the
saved path) and the trace.  When the response has no images, the `open`
creates the file and `response.generated_images[0]` then raises IndexError,
which the `except` clause turns into a printed message and `None`. -/
def generate_image (api : ApiResult) (prompt : String)
    (output_dir : Option String) (temp_dir : String) :
    Option String × List Effect :=
  let gen := Effect.print ("Generating image with prompt: " ++ prompt)
  match api with
  | ApiResult.raises m =>
      (none, [gen, Effect.print ("Error generating image: " ++ m)])
  | ApiResult.ok resp =>
      let save_dir := if isTruthy output_dir then output_dir.getD "" else temp_dir
      let dirEffs := if isTruthy output_dir
        then [Effect.mkdir (output_dir.getD "")] else []
      let image_path := save_dir ++ "/imagen4_" ++ safe_prompt prompt ++ ".png"
      match resp.generated_images with
      | [] =>
          (none, [gen] ++ dirEffs ++ [Effect.writeBytes image_path [],
            Effect.print "Error generating image: list index out of range"])
      | img :: _ =>
          (some image_path, [gen] ++ dirEffs ++
            [Effect.writeBytes image_path img.image.data,
             Effect.print ("Image saved to: " ++ image_path)])

/-- Embeds `display_image(image_path)`.  `file_exists` is the
`os.path.exists(image_path)` oracle; absolute-path resolution is modelled
as the identity. -/
def display_image (image_path : Option String) (file_exists : Bool) :
    List Effect :=
  if isTruthy image_path && file_exists then
    [Effect.print ("Opening image: " ++ image_path.getD ""),
     Effect.openBrowser ("file://" ++ image_path.getD "")]
  else
    [Effect.print "No image to display."]

/-- The parsed CLI arguments, with the `argparse` defaults of `main`. -/
structure Args where
  project : Option String := none
  location : String := "us-central1"
  output_dir : Option String := none
  model : String := "imagen-4.0-generate-preview-05-20"
  prompt : Option String := none
deriving DecidableEq, Repr

/-- The flag names registered on the `argparse` parser in `main`. -/
def cli_flags : List String :=
  ["--project", "--location", "--output-dir", "--model", "--prompt"]

/-- The `argparse` defaults: the `Args` value when no flag is passed. -/
def defaultArgs : Args := {}

/-- Embeds `main()` of `imagen4_cli.py` followed by interpreter exit: returns the
process exit status and the trace.  `stdin_prompt` is the line a
`input("Enter your image prompt: ")` read would return.  A normal return
from `main` exits with status 0; an exception reaching the generic handler
prints it and exits 1. -/
def cliMain (args : Args) (env_project : Option String) (stdin_prompt : String)
    (client_exc : Option String) (api : ApiResult) (temp_dir : String)
    (file_exists : Bool) : Nat × List Effect :=
  match setup_client args.project args.location env_project client_exc with
  | Except.error e => (1, [Effect.print ("Error: " ++ e.msg)])
  | Except.ok _ =>
      let promptPair :=
        if isTruthy args.prompt then ((args.prompt).getD "", ([] : List Effect))
        else (stdin_prompt, [Effect.readLine "Enter your image prompt: "])
      let genPair := generate_image api promptPair.1 args.output_dir temp_dir
      let dispEffs := if isTruthy genPair.1
        then display_image genPair.1 file_exists else []
      (0, promptPair.2 ++ genPair.2 ++ dispEffs)

/-! ## example.py -/

/-- The module body of `example.py`: project id from environment or prompt,
one generation call, one verbatim byte write.  An exception from the client
constructor or the generation call is uncaught and aborts the script. -/
def example_main (env_project : Option String) (_stdin_project : String)
    (client_exc : Option String) (api : ApiResult) :
    Except PyError Unit × List Effect :=
  let readEffs : List Effect :=
    if isTruthy env_project then []
    else [Effect.readLine "Enter your Google Cloud project ID: "]
  match client_exc with
  | some m => (Except.error (PyError.apiError m), readEffs)
  | none =>
    match api with
    | ApiResult.raises m => (Except.error (PyError.apiError m), readEffs)
    | ApiResult.ok resp =>
      match resp.generated_images with
      | [] =>
          (Except.error (PyError.indexError "list index out of range"),
            readEffs ++ [Effect.writeBytes "example_output.png" []])
      | img :: _ =>
          (Except.ok (), readEffs ++
            [Effect.writeBytes "example_output.png" img.image.data,
             Effect.print "Image generated and saved as example_output.png"])

/-! ## setup.py

Each wizard step function is embedded with its subprocess / stdin / API
interactions as oracle parameters.  Printed strings that interpolate
values no claim touches (the interpreter version banner, platform shell
hints, the multi-line advisory blocks) are carried in abbreviated form;
control flow, return values, reads and writes follow the source. -/

/-- Embeds `print_step(step_num, total_steps, message)`. -/
def print_step (step_num total : Nat) (message : String) : List Effect :=
  [Effect.print ("\n[" ++ toString step_num ++ "/" ++ toString total ++ "] " ++ message),
   Effect.print (String.mk (List.replicate 80 '='))]

/-- Embeds `check_python_version()`, with `sys.version_info` as the oracle. -/
def check_python_version (py_major py_minor : Nat) : Bool × List Effect :=
  let hdr := print_step 1 6 "Checking Python version"
  if py_major < 3 ∨ (py_major = 3 ∧ py_minor < 7) then
    (false, hdr ++ [Effect.print "❌ Python 3.7 or higher is required.",
      Effect.print "   Please upgrade your Python installation."])
  else
    (true, hdr ++ [Effect.print "✅ Python version is compatible."])

/-- Embeds `install_dependencies()`.  `req_exists` is
`Path("requirements.txt").exists()`; `pip_ok`/`pip_out` the result of the
`pip install -r requirements.txt` subprocess. -/
def install_dependencies (req_exists pip_ok : Bool) (pip_out : String) :
    Bool × List Effect :=
  let hdr := print_step 2 6 "Installing dependencies"
  if !req_exists then
    (false, hdr ++ [Effect.print "❌ requirements.txt not found in the current directory."])
  else if !pip_ok then
    (false, hdr ++ [Effect.print ("❌ Failed to install dependencies: " ++ pip_out)])
  else
    (true, hdr ++ [Effect.print "✅ Dependencies installed successfully."])

/-- Oracle for `check_gcloud_installation`: whether `gcloud --version`
succeeds from PATH, the platform, `os.getenv("LOCALAPPDATA")`, whether the
constructed fallback path exists, and whether `--version` at the fallback
path succeeds. -/
structure GcloudEnv where
  path_ok : Bool
  isWindows : Bool
  localAppData : Option String
  fallbackExists : Bool
  fallback_ok : Bool
deriving DecidableEq, Repr

/-- The Windows fallback path `check_gcloud_installation` constructs. -/
def fallbackPath (e : GcloudEnv) : String :=
  match e.localAppData with
  | some lad => lad ++ "/Google/Cloud SDK/google-cloud-sdk/bin/gcloud.cmd"
  | none => "C:/Users/chris/AppData/Local/Google/Cloud SDK/google-cloud-sdk/bin/gcloud.cmd"

/-- The return value of `check_gcloud_installation`: the failure path
returns the bare boolean `False`, the success path a two-element tuple. -/
inductive GcloudReturn where
  | boolOnly (b : Bool)
  | pair (b : Bool) (cmd : Option String)
deriving DecidableEq, Repr

/-- Truthiness of the first component of a `GcloudReturn`. -/
def gcloudReturnOk : GcloudReturn → Bool
  | GcloudReturn.boolOnly b => b
  | GcloudReturn.pair b _ => b

/-- Embeds `check_gcloud_installation()`.  On a PATH miss, only Windows defines
`gcloud_cmd_path` (from LOCALAPPDATA or the hardcoded user path), so the
fallback attempt runs only when the platform is Windows and that path
exists; a final failure returns the bare `False`. -/
def check_gcloud_installation (e : GcloudEnv) : GcloudReturn × List Effect :=
  let hdr := print_step 3 6 "Checking Google Cloud SDK installation"
  if e.path_ok then
    (GcloudReturn.pair true (some "gcloud"),
      hdr ++ [Effect.print "✅ Google Cloud SDK is installed."])
  else
    let retryEffs := [Effect.print "   Attempting to use known SDK path..."]
    if e.isWindows && e.fallbackExists then
      let cmd := fallbackPath e
      if e.fallback_ok then
        (GcloudReturn.pair true (some cmd),
          hdr ++ retryEffs ++
            [Effect.print ("   Trying full path: " ++ cmd),
             Effect.print "✅ Google Cloud SDK is installed.",
             Effect.print "   Adding the SDK directory to PATH for this session.",
             Effect.prependPath cmd])
      else
        (GcloudReturn.boolOnly false,
          hdr ++ retryEffs ++
            [Effect.print ("   Trying full path: " ++ cmd),
             Effect.print "❌ Google Cloud SDK (gcloud) is not installed or not in PATH.",
             Effect.print "   Even after attempting a known common path, gcloud was not found or failed."])
    else
      (GcloudReturn.boolOnly false,
        hdr ++ retryEffs ++
          [Effect.print "❌ Google Cloud SDK (gcloud) is not installed or not in PATH.",
           Effect.print "   Even after attempting a known common path, gcloud was not found or failed."])

/-- Embeds `setup_gcloud_auth(gcloud_executable)`.  `auth_ok`/`auth_out` is the
result of the `auth application-default login` subprocess. -/
def setup_gcloud_auth (_gcloud_executable : String) (auth_ok : Bool)
    (auth_out : String) : Bool × List Effect :=
  let hdr := print_step 4 6 "Setting up Google Cloud authentication"
  let pre := hdr ++
    [Effect.print "This step will open a browser window for you to log in to your Google account.",
     Effect.print "If you are already authenticated, this step will be skipped.",
     Effect.readLine "Press Enter to continue..."]
  if !auth_ok then
    (false, pre ++ [Effect.print ("❌ Failed to set up authentication: " ++ auth_out)])
  else
    (true, pre ++ [Effect.print "✅ Google Cloud authentication set up successfully."])

/-- One entry of the parsed `gcloud projects list --format=json` output. -/
structure Project where
  projectId : String
  name : Option String
deriving DecidableEq, Repr

/-- Python `str.isdigit` (ASCII digits; false on the empty string). -/
def pyIsDigit (s : String) : Bool :=
  s != "" && s.data.all Char.isDigit

/-- Embeds `configure_project(gcloud_executable)`.  Oracles: the environment
variable, the stdin answers (`change_ans` for the change prompt, `choice`
for the selection, `manual` for any of the three manual-entry prompts, all
modelling the next stdin line), the `projects list` subprocess result
(`list_ok`/`list_err`), and `parsed`, the outcome of `json.loads` on its
output (`none` models a raised `json.JSONDecodeError`, caught by the
`except` clause). -/
def configure_project (_gcloud_executable : String) (env_project : Option String)
    (change_ans : String) (list_ok : Bool) (list_err : String)
    (parsed : Option (List Project)) (choice manual : String) :
    (Bool × String) × List Effect :=
  let hdr := print_step 5 6 "Configuring Google Cloud project"
  let keepEffs : List Effect :=
    if isTruthy env_project then
      [Effect.print ("Project ID is already set in environment: " ++ env_project.getD ""),
       Effect.readLine "Do you want to change it? (y/N): "]
    else []
  if isTruthy env_project && (pyLower change_ans != "y") then
    ((true, env_project.getD ""), hdr ++ keepEffs)
  else
    let pickPair : String × List Effect :=
      if !list_ok then
        (manual, [Effect.print ("❌ Failed to list projects: " ++ list_err),
          Effect.readLine "Enter your Google Cloud project ID manually: "])
      else
        match parsed with
        | none =>
            (manual, [Effect.print "❌ Failed to parse project list.",
              Effect.readLine "Enter your Google Cloud project ID manually: "])
        | some [] =>
            (manual, [Effect.print "No projects found in your Google Cloud account.",
              Effect.readLine "Enter your Google Cloud project ID: "])
        | some ps =>
            let listEffs := [Effect.print "\nAvailable projects:"] ++
              ps.map (fun p => Effect.print (p.projectId ++ " - " ++ p.name.getD "No name")) ++
              [Effect.readLine "\nSelect a project number or enter a project ID manually: "]
            let n := (choice.toNat?).getD 0
            if pyIsDigit choice && decide (1 ≤ n) && decide (n ≤ ps.length) then
              ((ps.getD (n - 1) (Project.mk "" none)).projectId, listEffs)
            else
              (choice, listEffs)
    ((true, pickPair.1),
      hdr ++ keepEffs ++ pickPair.2 ++
        [Effect.setEnv "GOOGLE_CLOUD_PROJECT" pickPair.1,
         Effect.writeText ".env" ("GOOGLE_CLOUD_PROJECT=" ++ pickPair.1 ++ "\n"),
         Effect.print ("✅ Project ID " ++ pickPair.1 ++ " configured and saved to .env file."),
         Effect.print "You can load this in your shell with:"])

/-- Embeds `test_imagen_api(project_id)`.  `import_ok` is whether the in-function
imports succeed; `api` folds the client constructor and the generation
call into one oracle (either can raise inside the same `try`). -/
def test_imagen_api (_project_id : String) (import_ok : Bool) (api : ApiResult)
    (view_ans : String) (temp_dir : String) : Bool × List Effect :=
  let hdr := print_step 6 6 "Testing connection to Imagen API"
  if !import_ok then
    (false, hdr ++ [Effect.print "❌ Failed to import required modules. Make sure dependencies are installed."])
  else
    let pre := hdr ++ [Effect.print "Initializing client...",
      Effect.print "Testing API access with a simple prompt..."]
    let failEffs := fun (m : String) =>
      [Effect.print ("❌ Failed to connect to Imagen API: " ++ m),
       Effect.print "\nPossible reasons:",
       Effect.print "\nTo request access to Imagen:"]
    match api with
    | ApiResult.raises m => (false, pre ++ failEffs m)
    | ApiResult.ok resp =>
      let test_image_path := temp_dir ++ "/imagen4_test.png"
      match resp.generated_images with
      | [] =>
          (false, pre ++ [Effect.writeBytes test_image_path []] ++
            failEffs "list index out of range")
      | img :: _ =>
          let viewEffs :=
            if pyLower view_ans = "y" then
              [Effect.openBrowser ("file://" ++ test_image_path)]
            else []
          (true, pre ++
            [Effect.writeBytes test_image_path img.image.data,
             Effect.print "✅ Successfully connected to Imagen API!",
             Effect.print ("✅ Test image saved to: " ++ test_image_path),
             Effect.readLine "Do you want to view the test image? (y/N): "] ++
            viewEffs)

/-- All oracles of one wizard run. -/
structure SetupWorld where
  py_major : Nat
  py_minor : Nat
  req_exists : Bool
  pip_ok : Bool
  pip_out : String
  gcloud : GcloudEnv
  auth_ok : Bool
  auth_out : String
  env_project : Option String
  change_ans : String
  list_ok : Bool
  list_err : String
  parsed : Option (List Project)
  choice : String
  manual : String
  import_ok : Bool
  api : ApiResult
  view_ans : String
  temp_dir : String
deriving Repr

/-- Embeds `main()` of `setup.py`: the outcome (`Except.error` models an
exception escaping `main`, in particular the TypeError from unpacking a
bare boolean at `gcloud_ok, gcloud_cmd_to_use = check_gcloud_installation()`),
the trace, and the list of wizard steps whose function was invoked, in
invocation order. -/
def setup_main (w : SetupWorld) : Except PyError Bool × List Effect × List Nat :=
  let banner := [Effect.print "Welcome to the Imagen4 CLI Setup"]
  let s1 := check_python_version w.py_major w.py_minor
  if !s1.1 then (Except.ok false, banner ++ s1.2, [1]) else
  let s2 := install_dependencies w.req_exists w.pip_ok w.pip_out
  if !s2.1 then (Except.ok false, banner ++ s1.2 ++ s2.2, [1, 2]) else
  let s3 := check_gcloud_installation w.gcloud
  match s3.1 with
  | GcloudReturn.boolOnly _ =>
      (Except.error (PyError.typeError "cannot unpack non-iterable bool object"),
        banner ++ s1.2 ++ s2.2 ++ s3.2, [1, 2, 3])
  | GcloudReturn.pair ok3 cmd3 =>
    if !ok3 then (Except.ok false, banner ++ s1.2 ++ s2.2 ++ s3.2, [1, 2, 3]) else
    let s4 := setup_gcloud_auth (cmd3.getD "") w.auth_ok w.auth_out
    if !s4.1 then
      (Except.ok false, banner ++ s1.2 ++ s2.2 ++ s3.2 ++ s4.2, [1, 2, 3, 4])
    else
    let s5 := configure_project (cmd3.getD "") w.env_project w.change_ans
      w.list_ok w.list_err w.parsed w.choice w.manual
    if !s5.1.1 then
      (Except.ok false, banner ++ s1.2 ++ s2.2 ++ s3.2 ++ s4.2 ++ s5.2,
        [1, 2, 3, 4, 5])
    else
    let s6 := test_imagen_api s5.1.2 w.import_ok w.api w.view_ans w.temp_dir
    if !s6.1 then
      (Except.ok false, banner ++ s1.2 ++ s2.2 ++ s3.2 ++ s4.2 ++ s5.2 ++ s6.2,
        [1, 2, 3, 4, 5, 6])
    else
      (Except.ok true,
        banner ++ s1.2 ++ s2.2 ++ s3.2 ++ s4.2 ++ s5.2 ++ s6.2 ++
          [Effect.print "🎉 Setup completed successfully! 🎉",
           Effect.print "\nYou can now use the Imagen4 CLI tool:"],
        [1, 2, 3, 4, 5, 6])

/-- The wizard steps attempted by a run. -/
def stepsOf (w : SetupWorld) : List Nat := (setup_main w).2.2

/-- The trace of a run of `main()`. -/
def effectsOf (w : SetupWorld) : List Effect := (setup_main w).2.1

/-- How the `setup.py` process terminates: a `sys.exit(0 if success else 1)`
on a normal return of `main`, or the generic top-level `except Exception`
handler printing the error and exiting 1. -/
inductive WizardExit where
  | normalExit (code : Nat)
  | unexpectedErrorExit (code : Nat)
deriving DecidableEq, Repr

/-- The `if __name__ == "__main__"` wrapper of `setup.py`. -/
def setup_entry (w : SetupWorld) : WizardExit × List Effect :=
  match setup_main w with
  | (Except.ok b, effs, _) => (WizardExit.normalExit (if b then 0 else 1), effs)
  | (Except.error e, effs, _) =>
      (WizardExit.unexpectedErrorExit 1,
        effs ++ [Effect.print ("\n\nAn unexpected error occurred: " ++ e.msg)])

/-- Whether wizard step `i` reports success in world `w` (the truthiness of
the value its step function returns, with step 3 read through
`gcloudReturnOk`; step 5 returns `True` on every path of
`configure_project`). -/
def stepOk (w : SetupWorld) : Nat → Bool
  | 1 => (check_python_version w.py_major w.py_minor).1
  | 2 => (install_dependencies w.req_exists w.pip_ok w.pip_out).1
  | 3 => gcloudReturnOk (check_gcloud_installation w.gcloud).1
  | 4 => (setup_gcloud_auth "" w.auth_ok w.auth_out).1
  | 5 => (configure_project "" w.env_project w.change_ans w.list_ok w.list_err
            w.parsed w.choice w.manual).1.1
  | 6 => (test_imagen_api
            (configure_project "" w.env_project w.change_ans w.list_ok
              w.list_err w.parsed w.choice w.manual).1.2
            w.import_ok w.api w.view_ans w.temp_dir).1
  | _ => true

/-- A concrete all-success oracle world for the wizard. -/
def baseWorld : SetupWorld where
  py_major := 3
  py_minor := 10
  req_exists := true
  pip_ok := true
  pip_out := ""
  gcloud := GcloudEnv.mk true false none false false
  auth_ok := true
  auth_out := ""
  env_project := none
  change_ans := ""
  list_ok := true
  list_err := ""
  parsed := some []
  choice := ""
  manual := "proj"
  import_ok := true
  api := ApiResult.ok (GenerateImagesResponse.mk [GeneratedImage.mk (Image.mk [1, 2, 3])])
  view_ans := ""
  temp_dir := "/tmp"

/-- The world `baseWorld` with a failing `pip install`. -/
def worldDepsFail : SetupWorld := { baseWorld with pip_ok := false }

/-- The world `baseWorld` with `gcloud` absent from PATH and no usable fallback. -/
def worldGcloudMissing : SetupWorld :=
  { baseWorld with gcloud := GcloudEnv.mk false false none false false }

/-- The world `baseWorld` with a failing authentication subprocess. -/
def worldAuthFail : SetupWorld := { baseWorld with auth_ok := false }

/-! ## Helper lemmas -/

theorem writesBytes_append (l1 l2 : List Effect) :
    writesBytes (l1 ++ l2) = writesBytes l1 ++ writesBytes l2 := by
  induction l1 with
  | nil => rfl
  | cons e rest ih => cases e <;> simp [writesBytes, ih]

theorem writesText_append (l1 l2 : List Effect) :
    writesText (l1 ++ l2) = writesText l1 ++ writesText l2 := by
  induction l1 with
  | nil => rfl
  | cons e rest ih => cases e <;> simp [writesText, ih]

theorem envSets_append (l1 l2 : List Effect) :
    envSets (l1 ++ l2) = envSets l1 ++ envSets l2 := by
  induction l1 with
  | nil => rfl
  | cons e rest ih => cases e <;> simp [envSets, ih]

theorem readCount_append (l1 l2 : List Effect) :
    readCount (l1 ++ l2) = readCount l1 + readCount l2 := by
  induction l1 with
  | nil => simp [readCount]
  | cons e rest ih => cases e <;> simp [readCount, ih, Nat.add_right_comm]

theorem writesText_map_print {α : Type} (ps : List α) (f : α → String) :
    writesText (ps.map fun p => Effect.print (f p)) = [] := by
  induction ps with
  | nil => rfl
  | cons p rest ih => simp [writesText, ih]

theorem envSets_map_print {α : Type} (ps : List α) (f : α → String) :
    envSets (ps.map fun p => Effect.print (f p)) = [] := by
  induction ps with
  | nil => rfl
  | cons p rest ih => simp [envSets, ih]

/-- The first component `setup_gcloud_auth` returns is exactly the success
of the auth subprocess. -/
theorem setup_gcloud_auth_fst (g : String) (a : Bool) (o : String) :
    (setup_gcloud_auth g a o).1 = a := by
  cases a <;> rfl

/-- The return value of `check_gcloud_installation`, as a function of its
oracle. -/
theorem check_gcloud_installation_fst (e : GcloudEnv) :
    (check_gcloud_installation e).1 =
      if e.path_ok then GcloudReturn.pair true (some "gcloud")
      else if e.isWindows && e.fallbackExists then
        (if e.fallback_ok then GcloudReturn.pair true (some (fallbackPath e))
         else GcloudReturn.boolOnly false)
      else GcloudReturn.boolOnly false := by
  obtain ⟨po, iw, lad, fe, fo⟩ := e
  cases po <;> cases iw <;> cases fe <;> cases fo <;> rfl

/-- The bare boolean returned on the failure path is always `False`. -/
theorem check_gcloud_boolOnly_false (e : GcloudEnv) (b : Bool)
    (h : (check_gcloud_installation e).1 = GcloudReturn.boolOnly b) :
    b = false := by
  rw [check_gcloud_installation_fst] at h
  obtain ⟨po, iw, lad, fe, fo⟩ := e
  cases po <;> cases iw <;> cases fe <;> cases fo <;> simp_all

/-- The tuple returned on the success path always has `True` first. -/
theorem check_gcloud_pair_true (e : GcloudEnv) (b : Bool) (cmd : Option String)
    (h : (check_gcloud_installation e).1 = GcloudReturn.pair b cmd) :
    b = true := by
  rw [check_gcloud_installation_fst] at h
  obtain ⟨po, iw, lad, fe, fo⟩ := e
  cases po <;> cases iw <;> cases fe <;> cases fo <;> simp_all

/-- The function `configure_project` reports success on every path. -/
theorem configure_project_fst (g : String) (env_project : Option String)
    (change_ans : String) (list_ok : Bool) (list_err : String)
    (parsed : Option (List Project)) (choice manual : String) :
    (configure_project g env_project change_ans list_ok list_err parsed
      choice manual).1.1 = true := by
  simp only [configure_project]
  split <;> rfl

/-! ## Claims -/

/-- C2: For every prompt string, the sanitized filename component used by
`generate_image` maps each non-alphanumeric character to an underscore and
each alphanumeric character to itself, applied to the prompt truncated to
a fixed prefix length of 30 characters; a successful `generate_image`
saves to the file named `imagen4_` followed by this sanitized prefix and
`.png` inside the save directory. -/
theorem sanitized_filename_spec (p : String) :
    (safe_prompt p).length = min 30 p.length ∧
    (∀ i c, i < 30 → p.data[i]? = some c →
      (safe_prompt p).data[i]? = some (if c.isAlphanum then c else '_')) ∧
    (∀ api output_dir temp_dir path,
      (generate_image api p output_dir temp_dir).1 = some path →
      path = (if isTruthy output_dir then output_dir.getD "" else temp_dir) ++
        "/imagen4_" ++ safe_prompt p ++ ".png") := by
  refine ⟨?_, ?_, ?_⟩
  · show ((p.data.take 30).map _).asString.length = _
    have : ((p.data.take 30).map
        (fun c => if c.isAlphanum then c else '_')).asString.length =
        ((p.data.take 30).map (fun c => if c.isAlphanum then c else '_')).length := rfl
    rw [this, List.length_map, List.length_take]
    rfl
  · intro i c hi hc
    show ((p.data.take 30).map _).asString.data[i]? = _
    have : ((p.data.take 30).map
        (fun c => if c.isAlphanum then c else '_')).asString.data =
        (p.data.take 30).map (fun c => if c.isAlphanum then c else '_') := rfl
    rw [this, List.getElem?_map, List.getElem?_take, hc]
    simp [hi]
  · intro api output_dir temp_dir path h
    cases api with
    | raises m => simp [generate_image] at h
    | ok resp =>
      obtain ⟨imgs⟩ := resp
      cases imgs with
      | nil => simp [generate_image] at h
      | cons img rest =>
        simp only [generate_image, Option.some.injEq] at h
        exact h.symm

/-- C2 witness: at the prompt `ab c!`, the space at index 2 is sanitized
to an underscore. -/
theorem sanitized_filename_spec_witness :
    (safe_prompt "ab c!").data[2]? = some '_' := by
  have h := (sanitized_filename_spec "ab c!").2.1 2 ' ' (by decide) (by decide)
  simpa using h

/-- C1: For every successful image-generation call in any of the three
entry points (`generate_image` in the CLI, the `example.py` module body,
`test_imagen_api` in the wizard), exactly one output file is written, and
its byte content equals the raw bytes of the first image of the response,
verbatim; and no call whose response raises or carries no image succeeds. -/
theorem successful_generation_single_verbatim_write
    (img : GeneratedImage) (rest : List GeneratedImage) (prompt : String)
    (output_dir : Option String) (temp_dir : String)
    (env_project : Option String) (stdin_project project_id : String)
    (import_ok : Bool) (view_ans m : String) :
    (∀ path,
      (generate_image (ApiResult.ok (GenerateImagesResponse.mk (img :: rest)))
        prompt output_dir temp_dir).1 = some path →
      writesBytes (generate_image (ApiResult.ok (GenerateImagesResponse.mk (img :: rest)))
        prompt output_dir temp_dir).2 = [(path, img.image.data)]) ∧
    ((example_main env_project stdin_project none
        (ApiResult.ok (GenerateImagesResponse.mk (img :: rest)))).1 = Except.ok () ∧
      writesBytes (example_main env_project stdin_project none
        (ApiResult.ok (GenerateImagesResponse.mk (img :: rest)))).2 =
        [("example_output.png", img.image.data)]) ∧
    (import_ok = true →
      (test_imagen_api project_id import_ok
        (ApiResult.ok (GenerateImagesResponse.mk (img :: rest))) view_ans temp_dir).1 = true ∧
      writesBytes (test_imagen_api project_id import_ok
        (ApiResult.ok (GenerateImagesResponse.mk (img :: rest))) view_ans temp_dir).2 =
        [(temp_dir ++ "/imagen4_test.png", img.image.data)]) ∧
    ((generate_image (ApiResult.raises m) prompt output_dir temp_dir).1 = none ∧
      (generate_image (ApiResult.ok (GenerateImagesResponse.mk []))
        prompt output_dir temp_dir).1 = none) ∧
    ((example_main env_project stdin_project none (ApiResult.raises m)).1 ≠ Except.ok () ∧
      (example_main env_project stdin_project none
        (ApiResult.ok (GenerateImagesResponse.mk []))).1 ≠ Except.ok () ∧
      (example_main env_project stdin_project (some m)
        (ApiResult.ok (GenerateImagesResponse.mk (img :: rest)))).1 ≠ Except.ok ()) ∧
    ((test_imagen_api project_id import_ok (ApiResult.raises m) view_ans temp_dir).1 = false ∧
      (test_imagen_api project_id import_ok (ApiResult.ok (GenerateImagesResponse.mk []))
        view_ans temp_dir).1 = false) := by
  refine ⟨?_, ?_, ?_, ?_, ?_, ?_⟩
  · intro path h
    simp only [generate_image, Option.some.injEq] at h
    subst h
    cases houtdir : isTruthy output_dir <;>
      simp [generate_image, writesBytes, writesBytes_append, houtdir]
  · cases henv : isTruthy env_project <;>
      simp [example_main, writesBytes, writesBytes_append, henv]
  · intro hio
    subst hio
    cases hview : pyLower view_ans == "y" <;>
      simp_all [test_imagen_api, writesBytes, writesBytes_append]
  · constructor
    · rfl
    · cases houtdir : isTruthy output_dir <;> simp [generate_image, houtdir]
  · refine ⟨?_, ?_, ?_⟩ <;>
      cases henv : isTruthy env_project <;> simp [example_main, henv]
  · cases himp : import_ok <;> simp [test_imagen_api, himp]

/-- C1 witness: a concrete successful CLI generation writes exactly the
first image's bytes to the derived path. -/
theorem successful_generation_single_verbatim_write_witness :
    writesBytes (generate_image
      (ApiResult.ok (GenerateImagesResponse.mk [GeneratedImage.mk (Image.mk [7, 8])]))
      "cat" none "/tmp").2 = [("/tmp/imagen4_cat.png", [7, 8])] :=
  (successful_generation_single_verbatim_write (GeneratedImage.mk (Image.mk [7, 8]))
    [] "cat" none "/tmp" none "" "" true "" "boom").1 "/tmp/imagen4_cat.png" (by decide)

/-- The first trace entry of `generate_image` is always the generating
message for the prompt actually used. -/
theorem generating_print_mem (api : ApiResult) (prompt : String)
    (output_dir : Option String) (temp_dir : String) :
    Effect.print ("Generating image with prompt: " ++ prompt) ∈
      (generate_image api prompt output_dir temp_dir).2 := by
  cases api with
  | raises m => simp [generate_image]
  | ok resp =>
    obtain ⟨imgs⟩ := resp
    cases imgs <;> cases h : isTruthy output_dir <;> simp [generate_image, h]

/-- C8: The CLI accepts the flags project, location, output-dir, model and
prompt; location defaults to `us-central1`, model defaults to
`imagen-4.0-generate-preview-05-20`, project/output-dir/prompt default to
absent; and when the prompt flag is absent the prompt is read
interactively from standard input and is the prompt actually used. -/
theorem cli_flags_and_defaults :
    cli_flags = ["--project", "--location", "--output-dir", "--model", "--prompt"] ∧
    defaultArgs.project = none ∧
    defaultArgs.location = "us-central1" ∧
    defaultArgs.output_dir = none ∧
    defaultArgs.model = "imagen-4.0-generate-preview-05-20" ∧
    defaultArgs.prompt = none ∧
    (∀ (args : Args) (env_project : Option String) (stdin_prompt : String)
        (api : ApiResult) (temp_dir : String) (file_exists : Bool),
      isTruthy args.prompt = false →
      isTruthy (if isTruthy args.project then args.project else env_project) = true →
      Effect.readLine "Enter your image prompt: " ∈
        (cliMain args env_project stdin_prompt none api temp_dir file_exists).2 ∧
      Effect.print ("Generating image with prompt: " ++ stdin_prompt) ∈
        (cliMain args env_project stdin_prompt none api temp_dir file_exists).2) := by
  refine ⟨rfl, rfl, rfl, rfl, rfl, rfl, ?_⟩
  intro args env_project stdin_prompt api temp_dir file_exists hprompt hsetup
  simp only [cliMain, setup_client, hsetup, if_true, hprompt, Bool.false_eq_true,
    if_false]
  constructor
  · simp
  · simp [generating_print_mem]

/-- C8 witness: a run with no `--prompt` flag contains the interactive
prompt read. -/
theorem cli_flags_and_defaults_witness :
    Effect.readLine "Enter your image prompt: " ∈
      (cliMain (Args.mk (some "p") "us-central1" none
          "imagen-4.0-generate-preview-05-20" none)
        none "dog" none (ApiResult.raises "x") "/tmp" false).2 :=
  (cli_flags_and_defaults.2.2.2.2.2.2
    (Args.mk (some "p") "us-central1" none "imagen-4.0-generate-preview-05-20" none)
    none "dog" (ApiResult.raises "x") "/tmp" false (by decide) (by decide)).1

/-- C5 counterexample: run with no `--project` flag and no
`GOOGLE_CLOUD_PROJECT`, the CLI performs no interactive read at all
(in particular it never prompts for a project identifier) and exits with
status 1 — refuting that it prompts interactively on this path. -/
theorem cli_no_project_counterexample :
    (cliMain (Args.mk none "us-central1" none
        "imagen-4.0-generate-preview-05-20" none)
      none "ignored" none (ApiResult.raises "unused") "/tmp" false).1 = 1 ∧
    readCount (cliMain (Args.mk none "us-central1" none
        "imagen-4.0-generate-preview-05-20" none)
      none "ignored" none (ApiResult.raises "unused") "/tmp" false).2 = 0 := by
  constructor <;> rfl

/-- C5 amended: when the CLI is run with no `--project` flag and no
project identifier in `GOOGLE_CLOUD_PROJECT`, `setup_client` raises
ValueError; `main` catches it, prints the error, and the process exits
with status 1, performing no interactive prompt. -/
theorem cli_no_project_raises_valueerror (args : Args)
    (env_project : Option String) (stdin_prompt : String)
    (client_exc : Option String) (api : ApiResult) (temp_dir : String)
    (file_exists : Bool)
    (hproj : isTruthy args.project = false)
    (henv : isTruthy env_project = false) :
    (cliMain args env_project stdin_prompt client_exc api temp_dir file_exists).1 = 1 ∧
    Effect.print ("Error: Project ID must be provided either as an argument or via GOOGLE_CLOUD_PROJECT environment variable") ∈
      (cliMain args env_project stdin_prompt client_exc api temp_dir file_exists).2 ∧
    readCount (cliMain args env_project stdin_prompt client_exc api temp_dir file_exists).2 = 0 := by
  simp [cliMain, setup_client, hproj, henv, PyError.msg, readCount]

/-- C5 witness: the amended behaviour at a concrete projectless
invocation. -/
theorem cli_no_project_raises_valueerror_witness :
    (cliMain (Args.mk none "us-central1" none
        "imagen-4.0-generate-preview-05-20" (some "cat"))
      none "x" none (ApiResult.raises "r") "/tmp" true).1 = 1 ∧
    Effect.print ("Error: Project ID must be provided either as an argument or via GOOGLE_CLOUD_PROJECT environment variable") ∈
      (cliMain (Args.mk none "us-central1" none
          "imagen-4.0-generate-preview-05-20" (some "cat"))
        none "x" none (ApiResult.raises "r") "/tmp" true).2 ∧
    readCount (cliMain (Args.mk none "us-central1" none
        "imagen-4.0-generate-preview-05-20" (some "cat"))
      none "x" none (ApiResult.raises "r") "/tmp" true).2 = 0 :=
  cli_no_project_raises_valueerror
    (Args.mk none "us-central1" none "imagen-4.0-generate-preview-05-20" (some "cat"))
    none "x" none (ApiResult.raises "r") "/tmp" true (by decide) (by decide)

/-- C4 counterexample: at a concrete run whose generation call raises, the
CLI prints the error message but exits with status 0, refuting that the
process exits non-zero whenever the generation call raises. -/
theorem cli_generation_raise_exit_zero_counterexample :
    (cliMain (Args.mk (some "proj") "us-central1" none
        "imagen-4.0-generate-preview-05-20" (some "cat"))
      none "" none (ApiResult.raises "boom") "/tmp" true).1 = 0 ∧
    Effect.print "Error generating image: boom" ∈
      (cliMain (Args.mk (some "proj") "us-central1" none
          "imagen-4.0-generate-preview-05-20" (some "cat"))
        none "" none (ApiResult.raises "boom") "/tmp" true).2 := by
  constructor
  · rfl
  · decide

/-- C4 amended: when an external call raises, a message is printed; in the
setup wizard the failing step returns failure and the remaining steps are
halted (a normal exit with status 1); in the CLI an exception during
client setup is printed and exits with status 1, but an exception raised
by the generation call is caught inside `generate_image` — the message is
printed and the process exits with status 0. -/
theorem external_failure_behaviour (args : Args) (env_project : Option String)
    (stdin_prompt m : String) (api : ApiResult) (temp_dir : String)
    (file_exists : Bool) (w : SetupWorld) (cmd : Option String)
    (hsetup : isTruthy (if isTruthy args.project then args.project else env_project) = true)
    (h1 : stepOk w 1 = true) (h2 : stepOk w 2 = true)
    (hg : (check_gcloud_installation w.gcloud).1 = GcloudReturn.pair true cmd)
    (hauth : w.auth_ok = false) :
    ((cliMain args env_project stdin_prompt none (ApiResult.raises m)
        temp_dir file_exists).1 = 0 ∧
      Effect.print ("Error generating image: " ++ m) ∈
        (cliMain args env_project stdin_prompt none (ApiResult.raises m)
          temp_dir file_exists).2) ∧
    ((cliMain args env_project stdin_prompt (some m) api temp_dir file_exists).1 = 1 ∧
      Effect.print ("Error: " ++ m) ∈
        (cliMain args env_project stdin_prompt (some m) api temp_dir file_exists).2) ∧
    ((setup_entry w).1 = WizardExit.normalExit 1 ∧
      stepsOf w = [1, 2, 3, 4] ∧
      Effect.print ("❌ Failed to set up authentication: " ++ w.auth_out) ∈ effectsOf w) := by
  have h1' : (check_python_version w.py_major w.py_minor).1 = true := h1
  have h2' : (install_dependencies w.req_exists w.pip_ok w.pip_out).1 = true := h2
  refine ⟨?_, ?_, ?_⟩
  · cases hp : isTruthy args.prompt <;>
      simp [cliMain, setup_client, hsetup, hp, generate_image]
  · simp [cliMain, setup_client, hsetup, PyError.msg]
  · have hmain : setup_main w =
        (Except.ok false,
          [Effect.print "Welcome to the Imagen4 CLI Setup"] ++
            (check_python_version w.py_major w.py_minor).2 ++
            (install_dependencies w.req_exists w.pip_ok w.pip_out).2 ++
            (check_gcloud_installation w.gcloud).2 ++
            (setup_gcloud_auth (cmd.getD "") w.auth_ok w.auth_out).2,
          [1, 2, 3, 4]) := by
      simp [setup_main, h1', h2', hg, hauth, setup_gcloud_auth_fst]
    refine ⟨?_, ?_, ?_⟩
    · simp [setup_entry, hmain]
    · simp [stepsOf, hmain]
    · simp only [effectsOf, hmain]
      simp [setup_gcloud_auth, hauth, List.mem_append]

/-- C4 witness: the amended behaviour at a concrete failing-auth wizard
run. -/
theorem external_failure_behaviour_witness :
    (setup_entry worldAuthFail).1 = WizardExit.normalExit 1 ∧
    stepsOf worldAuthFail = [1, 2, 3, 4] := by
  have h := external_failure_behaviour
    (Args.mk (some "p") "us-central1" none "imagen-4.0-generate-preview-05-20" (some "cat"))
    none "" "boom" (ApiResult.raises "z") "/tmp" true worldAuthFail (some "gcloud")
    (by decide) (by decide) (by decide) (by decide) (by decide)
  exact ⟨h.2.2.1, h.2.2.2.1⟩

/-- Step 5 never fails: `configure_project` always reports success. -/
theorem stepOk_five (w : SetupWorld) : stepOk w 5 = true :=
  configure_project_fst "" w.env_project w.change_ans w.list_ok w.list_err
    w.parsed w.choice w.manual

/-- The attempted wizard steps, characterized by the step outcomes: the
wizard runs 1, 2, 3, 4, 5, 6 in order and stops after the first step that
reports failure (step 5 never fails, and a step-6 failure is already the
last step). -/
theorem stepsOf_eq (w : SetupWorld) :
    stepsOf w =
      if stepOk w 1 = false then [1]
      else if stepOk w 2 = false then [1, 2]
      else if stepOk w 3 = false then [1, 2, 3]
      else if stepOk w 4 = false then [1, 2, 3, 4]
      else [1, 2, 3, 4, 5, 6] := by
  have e1 : stepOk w 1 = (check_python_version w.py_major w.py_minor).1 := rfl
  have e2 : stepOk w 2 = (install_dependencies w.req_exists w.pip_ok w.pip_out).1 := rfl
  have e3 : stepOk w 3 = gcloudReturnOk (check_gcloud_installation w.gcloud).1 := rfl
  have e4 : stepOk w 4 = w.auth_ok := by
    rw [show stepOk w 4 = (setup_gcloud_auth "" w.auth_ok w.auth_out).1 from rfl,
      setup_gcloud_auth_fst]
  unfold stepsOf setup_main
  cases hc1 : (check_python_version w.py_major w.py_minor).1
  · simp [e1, hc1]
  · cases hc2 : (install_dependencies w.req_exists w.pip_ok w.pip_out).1
    · simp [e1, e2, hc1, hc2]
    · cases hc3 : (check_gcloud_installation w.gcloud).1 with
      | boolOnly b =>
        have hb : b = false := check_gcloud_boolOnly_false _ _ hc3
        subst hb
        simp [e1, e2, e3, hc1, hc2, hc3, gcloudReturnOk]
      | pair b cmd =>
        have hb : b = true := check_gcloud_pair_true _ _ _ hc3
        subst hb
        cases hc4 : w.auth_ok
        · simp [e1, e2, e3, e4, hc1, hc2, hc3, hc4, gcloudReturnOk,
            setup_gcloud_auth_fst]
        · simp only [e1, e2, e3, e4, hc1, hc2, hc3, hc4, gcloudReturnOk,
            setup_gcloud_auth_fst, configure_project_fst, Bool.not_true,
            Bool.false_eq_true, if_false, Bool.true_eq_false]
          simp [configure_project_fst]
          split <;> rfl

/-- C3: the six wizard steps are attempted in order (the attempted list is
a prefix of `[1..6]`); if an attempted step reports failure it is the last
step attempted; if every attempted step succeeds all six run; and if
dependency installation fails, authentication is never attempted. -/
theorem setup_steps_sequential (w : SetupWorld) :
    stepsOf w <+: [1, 2, 3, 4, 5, 6] ∧
    (∀ i ∈ stepsOf w, stepOk w i = false → (stepsOf w).getLast? = some i) ∧
    ((∀ i ∈ stepsOf w, stepOk w i = true) → stepsOf w = [1, 2, 3, 4, 5, 6]) ∧
    (stepOk w 2 = false → 4 ∉ stepsOf w) := by
  have k5 : stepOk w 5 = true := stepOk_five w
  rw [stepsOf_eq]
  by_cases k1 : stepOk w 1 = false
  · simp only [k1, if_true]
    refine ⟨⟨[2, 3, 4, 5, 6], rfl⟩, ?_, ?_, ?_⟩
    · intro i hi _
      simp only [List.mem_singleton] at hi
      subst hi; rfl
    · intro hall
      have h := hall 1 (by simp)
      rw [k1] at h
      exact absurd h (by simp)
    · intro _; decide
  · have k1' : stepOk w 1 = true := by revert k1; cases stepOk w 1 <;> simp
    by_cases k2 : stepOk w 2 = false
    · simp only [k1', Bool.true_eq_false, if_false, k2, if_true]
      refine ⟨⟨[3, 4, 5, 6], rfl⟩, ?_, ?_, ?_⟩
      · intro i hi hfail
        rcases List.mem_pair.mp hi with h | h <;> subst h
        · rw [k1'] at hfail; exact absurd hfail (by simp)
        · rfl
      · intro hall
        have h := hall 2 (by simp)
        rw [k2] at h
        exact absurd h (by simp)
      · intro _; decide
    · have k2' : stepOk w 2 = true := by revert k2; cases stepOk w 2 <;> simp
      by_cases k3 : stepOk w 3 = false
      · simp only [k1', k2', Bool.true_eq_false, if_false, k3, if_true]
        refine ⟨⟨[4, 5, 6], rfl⟩, ?_, ?_, ?_⟩
        · intro i hi hfail
          simp at hi
          rcases hi with h | h | h <;> subst h
          · rw [k1'] at hfail; exact absurd hfail (by simp)
          · rw [k2'] at hfail; exact absurd hfail (by simp)
          · rfl
        · intro hall
          have h := hall 3 (by simp)
          rw [k3] at h
          exact absurd h (by simp)
        · intro h; exact h.elim
      · have k3' : stepOk w 3 = true := by revert k3; cases stepOk w 3 <;> simp
        by_cases k4 : stepOk w 4 = false
        · simp only [k1', k2', k3', Bool.true_eq_false, if_false, k4, if_true]
          refine ⟨⟨[5, 6], rfl⟩, ?_, ?_, ?_⟩
          · intro i hi hfail
            simp at hi
            rcases hi with h | h | h | h <;> subst h
            · rw [k1'] at hfail; exact absurd hfail (by simp)
            · rw [k2'] at hfail; exact absurd hfail (by simp)
            · rw [k3'] at hfail; exact absurd hfail (by simp)
            · rfl
          · intro hall
            have h := hall 4 (by simp)
            rw [k4] at h
            exact absurd h (by simp)
          · intro h; exact h.elim
        · have k4' : stepOk w 4 = true := by revert k4; cases stepOk w 4 <;> simp
          simp only [k1', k2', k3', k4', Bool.true_eq_false, if_false]
          refine ⟨⟨[], by simp⟩, ?_, ?_, ?_⟩
          · intro i hi hfail
            simp at hi
            rcases hi with h | h | h | h | h | h <;> subst h
            · rw [k1'] at hfail; exact absurd hfail (by simp)
            · rw [k2'] at hfail; exact absurd hfail (by simp)
            · rw [k3'] at hfail; exact absurd hfail (by simp)
            · rw [k4'] at hfail; exact absurd hfail (by simp)
            · rw [k5] at hfail; exact absurd hfail (by simp)
            · rfl
          · intro _; trivial
          · intro h; exact h.elim

/-- C3 witness: with a failing `pip install`, the wizard halts after step 2
and never attempts authentication. -/
theorem setup_steps_sequential_witness :
    (stepsOf worldDepsFail).getLast? = some 2 ∧ 4 ∉ stepsOf worldDepsFail := by
  have h := setup_steps_sequential worldDepsFail
  exact ⟨h.2.1 2 (by decide) (by decide), h.2.2.2 (by decide)⟩

/-- C7: when gcloud discovery fails, `check_gcloud_installation` returns
the bare boolean `False`; the tuple unpacking in `main` therefore raises a
TypeError, and the wizard terminates through the generic top-level handler
(`unexpectedErrorExit`) rather than the clean step-failure path, with
exactly steps 1, 2, 3 attempted. -/
theorem gcloud_failure_raises_typeerror (w : SetupWorld)
    (h1 : stepOk w 1 = true) (h2 : stepOk w 2 = true)
    (hpath : w.gcloud.path_ok = false)
    (hfb : (w.gcloud.isWindows && w.gcloud.fallbackExists && w.gcloud.fallback_ok) = false) :
    (check_gcloud_installation w.gcloud).1 = GcloudReturn.boolOnly false ∧
    (setup_main w).1 = Except.error (PyError.typeError "cannot unpack non-iterable bool object") ∧
    (setup_entry w).1 = WizardExit.unexpectedErrorExit 1 ∧
    stepsOf w = [1, 2, 3] := by
  have h1' : (check_python_version w.py_major w.py_minor).1 = true := h1
  have h2' : (install_dependencies w.req_exists w.pip_ok w.pip_out).1 = true := h2
  have hret : (check_gcloud_installation w.gcloud).1 = GcloudReturn.boolOnly false := by
    rw [check_gcloud_installation_fst, hpath]
    cases hiwfe : (w.gcloud.isWindows && w.gcloud.fallbackExists)
    · simp [hiwfe]
    · have hfo : w.gcloud.fallback_ok = false := by
        rw [hiwfe] at hfb
        simpa using hfb
      simp [hiwfe, hfo]
  refine ⟨hret, ?_, ?_, ?_⟩
  · simp [setup_main, h1', h2', hret]
  · simp [setup_entry, setup_main, h1', h2', hret]
  · simp [stepsOf, setup_main, h1', h2', hret]

/-- C7 witness: a concrete world with gcloud absent terminates through the
generic handler after steps 1, 2, 3. -/
theorem gcloud_failure_raises_typeerror_witness :
    (setup_entry worldGcloudMissing).1 = WizardExit.unexpectedErrorExit 1 ∧
    stepsOf worldGcloudMissing = [1, 2, 3] := by
  have h := gcloud_failure_raises_typeerror worldGcloudMissing
    (by decide) (by decide) (by decide) (by decide)
  exact ⟨h.2.2.1, h.2.2.2⟩

/-- C6: when the project-listing output is not valid JSON (`parsed = none`
models the caught `json.JSONDecodeError`) or parses to an empty list, the
project-configuration step falls back to a manual text-entry prompt and
returns success with the manually entered identifier instead of raising. -/
theorem configure_project_fallback (g : String) (env_project : Option String)
    (change_ans list_err : String) (parsed : Option (List Project))
    (choice manual : String)
    (hreach : isTruthy env_project = false ∨ pyLower change_ans = "y")
    (hparsed : parsed = none ∨ parsed = some []) :
    (configure_project g env_project change_ans true list_err parsed choice manual).1 =
      (true, manual) ∧
    (parsed = none →
      Effect.readLine "Enter your Google Cloud project ID manually: " ∈
        (configure_project g env_project change_ans true list_err parsed choice manual).2) ∧
    (parsed = some [] →
      Effect.readLine "Enter your Google Cloud project ID: " ∈
        (configure_project g env_project change_ans true list_err parsed choice manual).2) := by
  have hcond : (isTruthy env_project && (pyLower change_ans != "y")) = false := by
    rcases hreach with h | h
    · simp [h]
    · simp [h]
  rcases hparsed with h | h <;> subst h <;>
    simp [configure_project, hcond, print_step]

/-- C6 witness: a concrete run with an empty project list completes with
the manually entered identifier. -/
theorem configure_project_fallback_witness :
    (configure_project "gcloud" none "" true "err" (some []) "1" "my-proj").1 =
      (true, "my-proj") :=
  (configure_project_fallback "gcloud" none "" "err" (some []) "1" "my-proj"
    (Or.inl (by decide)) (Or.inr rfl)).1

/-- C9: whenever the project-configuration step proceeds to select a
project identifier (it does not keep an existing one), it performs exactly
one `GOOGLE_CLOUD_PROJECT` environment assignment, to the selected
identifier, and exactly one `.env` write whose whole content is the single
line `GOOGLE_CLOUD_PROJECT=<id>` (newline-terminated). -/
theorem configure_project_persists (g : String) (env_project : Option String)
    (change_ans : String) (list_ok : Bool) (list_err : String)
    (parsed : Option (List Project)) (choice manual : String)
    (hreach : isTruthy env_project = false ∨ pyLower change_ans = "y") :
    (configure_project g env_project change_ans list_ok list_err parsed choice manual).1.1 = true ∧
    envSets (configure_project g env_project change_ans list_ok list_err parsed choice manual).2 =
      [("GOOGLE_CLOUD_PROJECT",
        (configure_project g env_project change_ans list_ok list_err parsed choice manual).1.2)] ∧
    writesText (configure_project g env_project change_ans list_ok list_err parsed choice manual).2 =
      [(".env", "GOOGLE_CLOUD_PROJECT=" ++
        (configure_project g env_project change_ans list_ok list_err parsed choice manual).1.2 ++ "\n")] := by
  by_cases henv : isTruthy env_project = true
  · have hy : pyLower change_ans = "y" := by
      rcases hreach with h | h
      · rw [h] at henv; exact absurd henv (by simp)
      · exact h
    cases hlo : list_ok
    · simp [configure_project, henv, hy, hlo, envSets, writesText,
        envSets_append, writesText_append, print_step]
    · cases parsed with
      | none =>
          simp [configure_project, henv, hy, hlo, envSets, writesText,
            envSets_append, writesText_append, print_step]
      | some ps =>
          cases ps with
          | nil =>
              simp [configure_project, henv, hy, hlo, envSets, writesText,
                envSets_append, writesText_append, print_step]
          | cons p rest =>
              simp [configure_project, henv, hy, hlo, envSets, writesText,
                envSets_append, writesText_append, print_step, envSets_map_print,
                writesText_map_print]
              try (split_ifs <;>
                simp [envSets, writesText, envSets_append, writesText_append,
                  envSets_map_print, writesText_map_print])
  · have henv' : isTruthy env_project = false := by
      revert henv; cases isTruthy env_project <;> simp
    cases hlo : list_ok
    · simp [configure_project, henv', hlo, envSets, writesText,
        envSets_append, writesText_append, print_step]
    · cases parsed with
      | none =>
          simp [configure_project, henv', hlo, envSets, writesText,
            envSets_append, writesText_append, print_step]
      | some ps =>
          cases ps with
          | nil =>
              simp [configure_project, henv', hlo, envSets, writesText,
                envSets_append, writesText_append, print_step]
          | cons p rest =>
              simp [configure_project, henv', hlo, envSets, writesText,
                envSets_append, writesText_append, print_step, envSets_map_print,
                writesText_map_print]
              try (split_ifs <;>
                simp [envSets, writesText, envSets_append, writesText_append,
                  envSets_map_print, writesText_map_print])

/-- C9 witness: a concrete selection run sets the environment variable and
writes the single-line `.env` file. -/
theorem configure_project_persists_witness :
    (configure_project "g" none "" true "" (some []) "" "pp").1.1 = true ∧
    envSets (configure_project "g" none "" true "" (some []) "" "pp").2 =
      [("GOOGLE_CLOUD_PROJECT", (configure_project "g" none "" true "" (some []) "" "pp").1.2)] ∧
    writesText (configure_project "g" none "" true "" (some []) "" "pp").2 =
      [(".env", "GOOGLE_CLOUD_PROJECT=" ++
        (configure_project "g" none "" true "" (some []) "" "pp").1.2 ++ "\n")] :=
  configure_project_persists "g" none "" true "" (some []) "" "pp" (Or.inl (by decide))

/-- C10: if `GOOGLE_CLOUD_PROJECT` is already set (non-empty) and the user
answers anything whose lowercasing is not `y`, the step returns success
with the existing identifier, performs no environment assignment and no
file write. -/
theorem configure_project_keep_existing (g p change_ans : String)
    (list_ok : Bool) (list_err : String) (parsed : Option (List Project))
    (choice manual : String)
    (hp : p ≠ "") (hans : pyLower change_ans ≠ "y") :
    (configure_project g (some p) change_ans list_ok list_err parsed choice manual).1 =
      (true, p) ∧
    envSets (configure_project g (some p) change_ans list_ok list_err parsed choice manual).2 = [] ∧
    writesText (configure_project g (some p) change_ans list_ok list_err parsed choice manual).2 = [] := by
  have htr : isTruthy (some p) = true := by simp [isTruthy, hp]
  have hcond : (isTruthy (some p) && (pyLower change_ans != "y")) = true := by
    simp [htr, hans]
  simp [configure_project, hcond, htr, hans, envSets, writesText,
    envSets_append, writesText_append, print_step]

/-- C10 witness: a concrete keep-existing run changes nothing. -/
theorem configure_project_keep_existing_witness :
    (configure_project "g" (some "pp") "n" true "" none "" "").1 = (true, "pp") ∧
    envSets (configure_project "g" (some "pp") "n" true "" none "" "").2 = [] ∧
    writesText (configure_project "g" (some "pp") "n" true "" none "" "").2 = [] :=
  configure_project_keep_existing "g" "pp" "n" true "" none "" ""
    (by decide) (by decide)

end Imagen4
